import Mathlib

/-!
Verification of the chatbot web service (`main.py`): a FastAPI gateway over a
single process-wide chat session wrapping an external generative-model
collaborator.  The external collaborator (the Gemini API client) is modelled as
an oracle parameter; the HTTP handlers, pydantic request validation and the
startup configuration block are embedded from the source.
-/

namespace Chatbot

/-- Role of a conversation turn: the spec's ConversationTurn role (user or model). -/
inductive Role where
  | user
  | model
  deriving DecidableEq, Repr

/-- One conversation turn: a role and the message text. -/
structure ConversationTurn where
  role : Role
  text : String
  deriving DecidableEq, Repr

/-- The ordered conversation history held by the process-wide chat session
(`chat = model.start_chat(history=[])` in `main.py`). -/
abbrev ConversationHistory := List ConversationTurn

/-- Minimal JSON values, used for request bodies and JSON response bodies. -/
inductive JsonValue where
  | null
  | bool (b : Bool)
  | num (n : Int)
  | str (s : String)
  | arr (elems : List JsonValue)
  | obj (fields : List (String × JsonValue))
  deriving Repr

/-- Modelled from the spec: the external model collaborator (the Gemini
API, out of scope to reimplement) accepts an ordered context of prior turns
plus a new message and returns generated text or signals an error
(network, authentication, quota, malformed response). -/
abbrev Oracle := ConversationHistory → String → Except String String

/-- Modelled from the spec: `chat.send_message` of the external client library's
chat session object (missing from `src/`; only its caller `handle_chat` is in
`src/main.py`).  It invokes the collaborator with the full accumulated context
plus the new message; on success it appends the message as a user turn and the
reply as a model turn to the history and returns the reply text; on failure the
history is left as it was. -/
def sendMessage (oracle : Oracle) (hist : ConversationHistory) (msg : String) :
    Except String (String × ConversationHistory) :=
  match oracle hist msg with
  | Except.ok reply =>
      Except.ok (reply, hist ++ [⟨Role.user, msg⟩, ⟨Role.model, reply⟩])
  | Except.error e => Except.error e

/-- The pydantic request model: `class ChatRequest(BaseModel): message: str`. -/
structure ChatRequest where
  message : String
  deriving DecidableEq, Repr

/-- An HTTP response with a JSON body, as produced by the `/api/chat` handler. -/
structure HttpResponse where
  status : Nat
  body : JsonValue
  deriving Repr

/-- The fixed generic detail string raised by `handle_chat` on failure
(`main.py`, line 74). -/
def errorDetail : String :=
  "Failed to get a response from the AI model. Check server logs for details."

/-- The `POST /api/chat` handler (`handle_chat` in `main.py`): sends the message
to the chat session; on success returns 200 with body `{"reply": text}`; on any
exception returns 500 with the fixed generic detail body, leaving the state as
the failed call left it. -/
def handle_chat (oracle : Oracle) (hist : ConversationHistory) (req : ChatRequest) :
    HttpResponse × ConversationHistory :=
  match sendMessage oracle hist req.message with
  | Except.ok (reply, hist') =>
      (⟨200, JsonValue.obj [("reply", JsonValue.str reply)]⟩, hist')
  | Except.error _ =>
      (⟨500, JsonValue.obj [("detail", JsonValue.str errorDetail)]⟩, hist)

/-- Field lookup in a JSON object, first binding wins. -/
def lookupField (key : String) : List (String × JsonValue) → Option JsonValue
  | [] => none
  | (k, v) :: rest => if k == key then some v else lookupField key rest

/-- Request-model validation performed by FastAPI before the handler runs: the
body must be a JSON object whose `message` field is a JSON string (the
`ChatRequest` pydantic model); anything else is rejected. -/
def parseChatRequest : Option JsonValue → Option ChatRequest
  | some (JsonValue.obj fields) =>
      match lookupField "message" fields with
      | some (JsonValue.str s) => some ⟨s⟩
      | _ => none
  | _ => none

/-- Outcome of the `/api/chat` route: either the handler ran and produced a
response, or request validation rejected the body before the handler ran. -/
inductive EndpointResult where
  | handled (resp : HttpResponse)
  | validationError
  deriving Repr

/-- The full `/api/chat` route: FastAPI validates the raw body against
`ChatRequest`; only on success does `handle_chat` run. -/
def chatEndpoint (oracle : Oracle) (hist : ConversationHistory)
    (body : Option JsonValue) : EndpointResult × ConversationHistory :=
  match parseChatRequest body with
  | some req =>
      let r := handle_chat oracle hist req
      (EndpointResult.handled r.1, r.2)
  | none => (EndpointResult.validationError, hist)

/-- An HTTP response carrying HTML. -/
structure HtmlResponse where
  status : Nat
  contentType : String
  content : String
  deriving DecidableEq, Repr

/-- The `GET /` handler (`read_root` in `main.py`): serves the rendered chat
page (template rendering is an excluded external collaborator, so the rendered
page is a parameter); it never touches the chat session state. -/
def read_root (indexHtml : String) (hist : ConversationHistory) :
    HtmlResponse × ConversationHistory :=
  (⟨200, "text/html", indexHtml⟩, hist)

/-- The error line printed when the credential is absent (`main.py`, line 22). -/
def GEMINI_KEY_MISSING_MSG : String :=
  "Error: GEMINI_API_KEY not found in environment variables."

/-- Python truthiness of `not api_key` for `os.getenv` results: the variable is
missing when unset or empty. -/
def keyMissing : Option String → Bool
  | none => true
  | some s => s.isEmpty

/-- Observable outcome of the startup configuration block. -/
structure StartupState where
  logs : List String
  aborted : Bool
  deriving DecidableEq, Repr

/-- The startup configuration block (`main.py`, lines 18-26): reads the
credential from the environment, logs when it is missing, logs a configuration
error when the client configuration call raises, and never aborts startup. -/
def startup (env : Option String) (configureError : Option String) : StartupState :=
  { logs :=
      (if keyMissing env then [GEMINI_KEY_MISSING_MSG] else []) ++
      (match configureError with
       | some e => ["Error configuring Gemini API: " ++ e]
       | none => []),
    aborted := false }

/-- Run a sequence of chat calls from a given history; `some` of the final
history when every call succeeds, `none` as soon as one fails. -/
def runChats (oracle : Oracle) : List String → ConversationHistory → Option ConversationHistory
  | [], hist => some hist
  | m :: rest, hist =>
      match sendMessage oracle hist m with
      | Except.ok (_, hist') => runChats oracle rest hist'
      | Except.error _ => none

/-- The roles of a history, in order. -/
def rolesOf (h : ConversationHistory) : List Role :=
  h.map ConversationTurn.role

/-- The texts of the user turns of a history, in order. -/
def userTexts : ConversationHistory → List String
  | [] => []
  | t :: rest =>
      if t.role = Role.user then t.text :: userTexts rest else userTexts rest

/-- The strictly alternating role pattern user, model, user, model, … of
length `2 * n`. -/
def alternatingRoles : Nat → List Role
  | 0 => []
  | n + 1 => Role.user :: Role.model :: alternatingRoles n

/-- A stub collaborator that always replies with a fixed text. -/
def stubOracle : Oracle := fun _ _ => Except.ok "hi there"

/-- A collaborator that always fails, as with a missing or bad credential. -/
def failOracle : Oracle := fun _ _ => Except.error "401 invalid api key"

/-- A collaborator whose reply depends on the accumulated context. -/
def contextOracle : Oracle := fun hist _ =>
  Except.ok (if hist.isEmpty then "hi there" else "hello again")

lemma handle_chat_ok_eq (oracle : Oracle) (hist : ConversationHistory)
    (req : ChatRequest) (t : String) (hok : oracle hist req.message = Except.ok t) :
    handle_chat oracle hist req =
      (⟨200, JsonValue.obj [("reply", JsonValue.str t)]⟩,
       hist ++ [⟨Role.user, req.message⟩, ⟨Role.model, t⟩]) := by
  simp [handle_chat, sendMessage, hok]

lemma handle_chat_error_eq (oracle : Oracle) (hist : ConversationHistory)
    (req : ChatRequest) (e : String) (herr : oracle hist req.message = Except.error e) :
    handle_chat oracle hist req =
      (⟨500, JsonValue.obj [("detail", JsonValue.str errorDetail)]⟩, hist) := by
  simp [handle_chat, sendMessage, herr]

/-- C1: for every message on which the external collaborator succeeds with
text `t`, `POST /api/chat` returns HTTP 200 with a JSON body that is exactly
the single string field `reply`, whose value is exactly `t`. -/
theorem chat_success_returns_reply (oracle : Oracle) (hist : ConversationHistory)
    (req : ChatRequest) (t : String) (hok : oracle hist req.message = Except.ok t) :
    (handle_chat oracle hist req).1 =
      ⟨200, JsonValue.obj [("reply", JsonValue.str t)]⟩ := by
  rw [handle_chat_ok_eq oracle hist req t hok]

/-- C1 witness: the stub collaborator replying "hi there" to "hello" yields
200 with body exactly the reply field "hi there". -/
theorem chat_success_returns_reply_witness :
    stubOracle [] (ChatRequest.mk "hello").message = Except.ok "hi there" ∧
    (handle_chat stubOracle [] (ChatRequest.mk "hello")).1 =
      ⟨200, JsonValue.obj [("reply", JsonValue.str "hi there")]⟩ :=
  ⟨rfl, chat_success_returns_reply stubOracle [] (ChatRequest.mk "hello") "hi there" rfl⟩

lemma sendMessage_ok (oracle : Oracle) (h₀ : ConversationHistory) (m r : String)
    (h' : ConversationHistory) (hok : sendMessage oracle h₀ m = Except.ok (r, h')) :
    oracle h₀ m = Except.ok r ∧ h' = h₀ ++ [⟨Role.user, m⟩, ⟨Role.model, r⟩] := by
  cases hor : oracle h₀ m with
  | ok t =>
      simp only [sendMessage, hor, Except.ok.injEq, Prod.mk.injEq] at hok
      obtain ⟨rfl, rfl⟩ := hok
      exact ⟨rfl, rfl⟩
  | error e => simp [sendMessage, hor] at hok

lemma alternatingRoles_length (n : Nat) : (alternatingRoles n).length = 2 * n := by
  induction n with
  | zero => rfl
  | succ k ih => simp [alternatingRoles, ih]; omega

lemma runChats_ext (oracle : Oracle) :
    ∀ (msgs : List String) (h₀ h : ConversationHistory),
      runChats oracle msgs h₀ = some h →
      ∃ ext, h = h₀ ++ ext ∧ rolesOf ext = alternatingRoles msgs.length ∧
        userTexts ext = msgs := by
  intro msgs
  induction msgs with
  | nil =>
      intro h₀ h hrun
      simp only [runChats, Option.some.injEq] at hrun
      exact ⟨[], by simp [hrun], rfl, rfl⟩
  | cons m rest ih =>
      intro h₀ h hrun
      cases hor : oracle h₀ m with
      | error e => simp [runChats, sendMessage, hor] at hrun
      | ok r =>
          simp only [runChats, sendMessage, hor] at hrun
          obtain ⟨ext, hh, hroles, htexts⟩ :=
            ih (h₀ ++ [⟨Role.user, m⟩, ⟨Role.model, r⟩]) h hrun
          refine ⟨⟨Role.user, m⟩ :: ⟨Role.model, r⟩ :: ext, ?_, ?_, ?_⟩
          · simp [hh]
          · simp only [rolesOf, List.map_cons] at hroles ⊢
            simp [alternatingRoles, hroles]
          · simp [userTexts, htexts]

lemma chatEndpoint_extends (oracle : Oracle) (h₀ : ConversationHistory)
    (b : Option JsonValue) :
    ∃ ext, (chatEndpoint oracle h₀ b).2 = h₀ ++ ext := by
  unfold chatEndpoint
  cases hp : parseChatRequest b with
  | none => exact ⟨[], by simp⟩
  | some req =>
      cases hor : oracle h₀ req.message with
      | ok t =>
          exact ⟨[⟨Role.user, req.message⟩, ⟨Role.model, t⟩],
            by simp [handle_chat, sendMessage, hor]⟩
      | error e => exact ⟨[], by simp [handle_chat, sendMessage, hor]⟩

/-- C2: after a sequence of successful sends from the empty history, the
history has exactly twice as many turns as calls, its roles strictly alternate
user then model, and its user turns carry the sent messages in call order;
moreover every successful send appends exactly its two turns at the end of the
prior history, and neither a chat call (successful, failed or rejected) nor
`GET /` ever removes or reorders an existing turn (the prior history is always
a prefix of the new one). -/
theorem history_after_successful_sends (oracle : Oracle) (msgs : List String)
    (h : ConversationHistory) (hrun : runChats oracle msgs [] = some h) :
    h.length = 2 * msgs.length ∧
    rolesOf h = alternatingRoles msgs.length ∧
    userTexts h = msgs ∧
    (∀ (h₀ : ConversationHistory) (m r : String) (h' : ConversationHistory),
        sendMessage oracle h₀ m = Except.ok (r, h') →
        h' = h₀ ++ [⟨Role.user, m⟩, ⟨Role.model, r⟩]) ∧
    (∀ (oracle' : Oracle) (h₀ : ConversationHistory) (b : Option JsonValue),
        ∃ ext, (chatEndpoint oracle' h₀ b).2 = h₀ ++ ext) ∧
    (∀ (tmpl : String) (h₀ : ConversationHistory), (read_root tmpl h₀).2 = h₀) := by
  obtain ⟨ext, hh, hroles, htexts⟩ := runChats_ext oracle msgs [] h hrun
  have hh' : h = ext := by simpa using hh
  subst hh'
  refine ⟨?_, hroles, htexts, ?_, ?_, ?_⟩
  · have hlen := congrArg List.length hroles
    simp only [rolesOf, List.length_map, alternatingRoles_length] at hlen
    exact hlen
  · intro h₀ m r h' hok
    exact (sendMessage_ok oracle h₀ m r h' hok).2
  · intro oracle' h₀ b
    exact chatEndpoint_extends oracle' h₀ b
  · intro tmpl h₀
    rfl

/-- The concrete four-turn history produced by two successful stub calls. -/
def twoTurnPairs : ConversationHistory :=
  [⟨Role.user, "a"⟩, ⟨Role.model, "hi there"⟩,
   ⟨Role.user, "b"⟩, ⟨Role.model, "hi there"⟩]

/-- C2 witness: two successful sends of "a" then "b" from the empty history
with the stub collaborator produce exactly the expected four-turn history. -/
theorem history_after_successful_sends_witness :
    runChats stubOracle ["a", "b"] [] = some twoTurnPairs ∧
    (twoTurnPairs.length = 2 * (["a", "b"] : List String).length ∧
     rolesOf twoTurnPairs = alternatingRoles (["a", "b"] : List String).length ∧
     userTexts twoTurnPairs = ["a", "b"] ∧
     (∀ (h₀ : ConversationHistory) (m r : String) (h' : ConversationHistory),
         sendMessage stubOracle h₀ m = Except.ok (r, h') →
         h' = h₀ ++ [⟨Role.user, m⟩, ⟨Role.model, r⟩]) ∧
     (∀ (oracle' : Oracle) (h₀ : ConversationHistory) (b : Option JsonValue),
         ∃ ext, (chatEndpoint oracle' h₀ b).2 = h₀ ++ ext) ∧
     (∀ (tmpl : String) (h₀ : ConversationHistory), (read_root tmpl h₀).2 = h₀)) :=
  ⟨rfl, history_after_successful_sends stubOracle ["a", "b"] twoTurnPairs rfl⟩

/-- C3: whenever the external collaborator call fails, for any reason and with
any error content `e`, `POST /api/chat` returns HTTP 500 with the one fixed
generic detail body — independent of `e` — and the handler returns normally
with the history unchanged rather than propagating the exception. -/
theorem chat_failure_returns_generic_500 (oracle : Oracle)
    (hist : ConversationHistory) (req : ChatRequest) (e : String)
    (herr : oracle hist req.message = Except.error e) :
    handle_chat oracle hist req =
      (⟨500, JsonValue.obj [("detail", JsonValue.str errorDetail)]⟩, hist) :=
  handle_chat_error_eq oracle hist req e herr

/-- C3 witness: the always-failing collaborator yields the fixed 500 response
with the history unchanged. -/
theorem chat_failure_returns_generic_500_witness :
    failOracle [] (ChatRequest.mk "hello").message =
      Except.error "401 invalid api key" ∧
    handle_chat failOracle [] (ChatRequest.mk "hello") =
      (⟨500, JsonValue.obj [("detail", JsonValue.str errorDetail)]⟩, []) :=
  ⟨rfl, chat_failure_returns_generic_500 failOracle [] (ChatRequest.mk "hello")
    "401 invalid api key" rfl⟩

/-- C4 counterexample: the empty message string is accepted by request
validation (`message: str` imposes no non-emptiness constraint) and the call
proceeds as a valid call — the collaborator is invoked and a 200 reply is
returned with the history grown — refuting the claim that an empty message
does not proceed as a valid call. -/
theorem empty_message_proceeds :
    parseChatRequest (some (JsonValue.obj [("message", JsonValue.str "")])) =
      some (ChatRequest.mk "") ∧
    chatEndpoint stubOracle [] (some (JsonValue.obj [("message", JsonValue.str "")])) =
      (EndpointResult.handled ⟨200, JsonValue.obj [("reply", JsonValue.str "hi there")]⟩,
       [⟨Role.user, ""⟩, ⟨Role.model, "hi there"⟩]) :=
  ⟨rfl, rfl⟩

/-- C4 amended: the send operation applies no validation to the message content
at all — any string `message` field, the empty string included, is accepted by
request validation and the call proceeds to the handler and the collaborator
exactly as for any other message. -/
theorem any_string_message_accepted (s : String) (oracle : Oracle)
    (hist : ConversationHistory) :
    parseChatRequest (some (JsonValue.obj [("message", JsonValue.str s)])) =
      some (ChatRequest.mk s) ∧
    chatEndpoint oracle hist (some (JsonValue.obj [("message", JsonValue.str s)])) =
      (EndpointResult.handled (handle_chat oracle hist (ChatRequest.mk s)).1,
       (handle_chat oracle hist (ChatRequest.mk s)).2) := by
  constructor
  · rfl
  · simp [chatEndpoint, parseChatRequest, lookupField]

lemma handle_chat_congr (oracle oracle' : Oracle) (hist : ConversationHistory)
    (m : String) (hsame : oracle' hist m = oracle hist m) :
    handle_chat oracle' hist (ChatRequest.mk m) =
      handle_chat oracle hist (ChatRequest.mk m) := by
  simp [handle_chat, sendMessage, hsame]

/-- C5: a successful call appends exactly the user turn and the model turn to
the prior history, so the resulting context contains the prior exchange; and
the outcome of the next call is determined by the collaborator's value at that
full accumulated context together with the new message — i.e. the collaborator
is invoked with the full accumulated context plus the new message. -/
theorem collaborator_gets_full_context (oracle : Oracle)
    (hist : ConversationHistory) (m₁ m₂ r₁ : String)
    (hok : oracle hist m₁ = Except.ok r₁) :
    (handle_chat oracle hist (ChatRequest.mk m₁)).2 =
      hist ++ [⟨Role.user, m₁⟩, ⟨Role.model, r₁⟩] ∧
    ConversationTurn.mk Role.user m₁ ∈ (handle_chat oracle hist (ChatRequest.mk m₁)).2 ∧
    ConversationTurn.mk Role.model r₁ ∈ (handle_chat oracle hist (ChatRequest.mk m₁)).2 ∧
    ∀ oracle' : Oracle,
      oracle' ((handle_chat oracle hist (ChatRequest.mk m₁)).2) m₂ =
        oracle ((handle_chat oracle hist (ChatRequest.mk m₁)).2) m₂ →
      handle_chat oracle' ((handle_chat oracle hist (ChatRequest.mk m₁)).2)
          (ChatRequest.mk m₂) =
        handle_chat oracle ((handle_chat oracle hist (ChatRequest.mk m₁)).2)
          (ChatRequest.mk m₂) := by
  have h2 : (handle_chat oracle hist (ChatRequest.mk m₁)).2 =
      hist ++ [⟨Role.user, m₁⟩, ⟨Role.model, r₁⟩] := by
    rw [handle_chat_ok_eq oracle hist (ChatRequest.mk m₁) r₁ hok]
  refine ⟨h2, ?_, ?_, ?_⟩
  · rw [h2]; simp
  · rw [h2]; simp
  · intro oracle' hsame
    exact handle_chat_congr oracle oracle' _ m₂ hsame

/-- C5 witness: the spec's example scenario with the stub collaborator — after
a first successful "hello" exchange the accumulated context is exactly the
prior history plus that exchange, and the second call is determined by the
collaborator's value at that context. -/
theorem collaborator_gets_full_context_witness :
    stubOracle [] "hello" = Except.ok "hi there" ∧
    ((handle_chat stubOracle [] (ChatRequest.mk "hello")).2 =
      [] ++ [⟨Role.user, "hello"⟩, ⟨Role.model, "hi there"⟩] ∧
     ConversationTurn.mk Role.user "hello" ∈
       (handle_chat stubOracle [] (ChatRequest.mk "hello")).2 ∧
     ConversationTurn.mk Role.model "hi there" ∈
       (handle_chat stubOracle [] (ChatRequest.mk "hello")).2 ∧
     ∀ oracle' : Oracle,
       oracle' ((handle_chat stubOracle [] (ChatRequest.mk "hello")).2) "hello" =
         stubOracle ((handle_chat stubOracle [] (ChatRequest.mk "hello")).2) "hello" →
       handle_chat oracle' ((handle_chat stubOracle [] (ChatRequest.mk "hello")).2)
           (ChatRequest.mk "hello") =
         handle_chat stubOracle ((handle_chat stubOracle [] (ChatRequest.mk "hello")).2)
           (ChatRequest.mk "hello")) :=
  ⟨rfl, collaborator_gets_full_context stubOracle [] "hello" "hello" "hi there" rfl⟩

/-- C6: sending is not idempotent — there are a history, a message and a
collaborator for which sending the same message twice appends two independent
turn-pairs (four turns in all) and the two calls return different replies,
because the context has grown between them. -/
theorem send_not_idempotent :
    ∃ (hist : ConversationHistory) (m : String) (oracle : Oracle) (r₁ r₂ : String),
      handle_chat oracle hist (ChatRequest.mk m) =
        (⟨200, JsonValue.obj [("reply", JsonValue.str r₁)]⟩,
         hist ++ [⟨Role.user, m⟩, ⟨Role.model, r₁⟩]) ∧
      handle_chat oracle (hist ++ [⟨Role.user, m⟩, ⟨Role.model, r₁⟩])
          (ChatRequest.mk m) =
        (⟨200, JsonValue.obj [("reply", JsonValue.str r₂)]⟩,
         hist ++ [⟨Role.user, m⟩, ⟨Role.model, r₁⟩,
                  ⟨Role.user, m⟩, ⟨Role.model, r₂⟩]) ∧
      r₁ ≠ r₂ :=
  ⟨[], "hello", contextOracle, "hi there", "hello again", rfl, rfl, by decide⟩

/-- C7: when the credential environment variable is absent at startup, the
absence is logged but startup is not aborted, and a chat request whose
collaborator call then fails is answered with HTTP 500 rather than crashing. -/
theorem missing_key_logged_not_fatal (env cfgErr : Option String) (oracle : Oracle)
    (hist : ConversationHistory) (req : ChatRequest) (e : String)
    (hmiss : keyMissing env = true) (herr : oracle hist req.message = Except.error e) :
    GEMINI_KEY_MISSING_MSG ∈ (startup env cfgErr).logs ∧
    (startup env cfgErr).aborted = false ∧
    (handle_chat oracle hist req).1.status = 500 := by
  refine ⟨?_, rfl, ?_⟩
  · simp [startup, hmiss]
  · rw [handle_chat_error_eq oracle hist req e herr]

/-- C7 witness: with the variable unset and the always-failing collaborator,
the missing-key message is logged, startup is not aborted, and the first chat
request is answered with 500. -/
theorem missing_key_logged_not_fatal_witness :
    keyMissing none = true ∧
    failOracle [] (ChatRequest.mk "hello").message =
      Except.error "401 invalid api key" ∧
    (GEMINI_KEY_MISSING_MSG ∈ (startup none none).logs ∧
     (startup none none).aborted = false ∧
     (handle_chat failOracle [] (ChatRequest.mk "hello")).1.status = 500) :=
  ⟨rfl, rfl, missing_key_logged_not_fatal none none failOracle [] (ChatRequest.mk "hello")
    "401 invalid api key" rfl rfl⟩

/-- C8: `GET /` returns HTTP 200 with HTML content for every conversation
history, and its response is independent of the chat state. -/
theorem root_returns_html (tmpl : String) (h₁ h₂ : ConversationHistory) :
    (read_root tmpl h₁).1.status = 200 ∧
    (read_root tmpl h₁).1.contentType = "text/html" ∧
    (read_root tmpl h₁).1 = (read_root tmpl h₂).1 :=
  ⟨rfl, rfl, rfl⟩

/-- C9: a request body that is not a JSON object with a string `message` field
is rejected by request-model validation before the handler runs: the outcome is
the validation error, the history is unchanged, and the result is the same for
every collaborator — so the collaborator is never invoked. -/
theorem invalid_body_rejected (body : Option JsonValue) (oracle : Oracle)
    (hist : ConversationHistory) (hinv : parseChatRequest body = none) :
    chatEndpoint oracle hist body = (EndpointResult.validationError, hist) := by
  simp [chatEndpoint, hinv]

/-- C9 witness: a body whose `message` field is a number is rejected with the
history unchanged. -/
theorem invalid_body_rejected_witness :
    parseChatRequest (some (JsonValue.obj [("message", JsonValue.num 3)])) = none ∧
    chatEndpoint stubOracle [] (some (JsonValue.obj [("message", JsonValue.num 3)])) =
      (EndpointResult.validationError, []) :=
  ⟨rfl, invalid_body_rejected (some (JsonValue.obj [("message", JsonValue.num 3)]))
    stubOracle [] rfl⟩

/-- C10: `GET /` never mutates the conversation history: for every state,
handling it returns the state exactly as it was. -/
theorem root_preserves_history (tmpl : String) (hist : ConversationHistory) :
    (read_root tmpl hist).2 = hist :=
  rfl

end Chatbot
